import Mathlib

/-!
Shallow embedding of the session lifecycle and message-synchronization core
of the openwechat bot (src/bot.go), together with theorems settling the
frozen claims about it.

The transport collaborator (the `Caller`) is external to the core: its
responses are modelled as scripted values carried by the environment.
Go's `context.Context` cancellation is modelled by a `ctxDone` flag on the
bot (`cancel` sets it), and `sync.Once` by a `onceDone` flag.  Observable
side effects of the loop (heartbeat callback, cursor store, handler
dispatch, remote logout call, logout callback) are recorded in a trace of
`Action`s so that ordering claims can be stated.
-/

namespace Openwechat

/-- Modelled from the spec: the typed protocol status code `Ret` (the
constants live outside src/bot.go).  The three known fatal codes named by
the spec are distinct integers; the exact numerals are irrelevant to every
claim, only their distinctness matters. -/
def failedLoginWarn : Int := 1100

/-- Modelled from the spec: the login-check-failed status code. -/
def failedLoginCheck : Int := 1101

/-- Modelled from the spec: the stale or invalid cookie status code. -/
def cookieInvalid : Int := 1102

/-- Go `error` values as the core distinguishes them: a typed `Ret`
protocol status (the only shape `errors.As(err, &ret)` extracts), a plain
transport failure, and an `errors.New` string. -/
inductive GoError : Type where
  | ret (code : Int)
  | transport (msg : String)
  | str (msg : String)
deriving DecidableEq, Repr

/-- The sync cursor token (`SyncKey`): an opaque structured value returned
by the service; only equality matters to the core. -/
structure SyncKey : Type where
  count : Nat
  keys : List (Nat × Nat)
deriving DecidableEq, Repr

/-- A chat event fetched by `WebWxSync`; payload schema is external, the
core only carries it to the handler. -/
structure Message : Type where
  msgId : String
  content : String
deriving DecidableEq, Repr

/-- The current user object set by `WebInit` (`Bot.self`); only presence
and identity matter to the core. -/
structure User : Type where
  userName : String
deriving DecidableEq, Repr

/-- Credentials block built in `HandleLogin` (src lines 138-143). -/
structure BaseRequest : Type where
  uin : Int
  sid : String
  skey : String
  deviceID : String
deriving DecidableEq, Repr

/-- Modelled from the spec: the service-issued login descriptor
(`LoginInfo`, defined outside src/bot.go): account identifiers, read-only
after login. -/
structure LoginInfo : Type where
  wxuin : Int
  wxsid : String
  skey : String
  passTicket : String
deriving DecidableEq, Repr

/-- Modelled from the spec: cookie-store contents, opaque and
transport-defined; `Jar.AsCookieJar` is the identity on this model. -/
def CookieJar : Type := List (String × String)

instance : DecidableEq CookieJar := by
  unfold CookieJar
  infer_instance

instance : Repr CookieJar := by
  unfold CookieJar
  infer_instance

/-- The full initialization response (`WebInitResponse`): the starting
sync cursor plus the user object; stored whole in `Storage.Response`. -/
structure WebInitResponse : Type where
  user : User
  syncKey : SyncKey
deriving DecidableEq, Repr

/-- Modelled from the spec: the poll signal (`SyncCheckResponse`), a
status code plus a selector value; the Go struct carries them as strings,
parsed to integers for the `Ret` conversion, so the model carries the
parsed integers directly. -/
structure SyncCheckResponse : Type where
  retCode : Int
  selector : Int
deriving DecidableEq, Repr

/-- Modelled from the spec: a success status code. -/
def SyncCheckResponse.Success (r : SyncCheckResponse) : Bool :=
  r.retCode == 0

/-- Modelled from the spec: the "normal" selector meaning no new events. -/
def SyncCheckResponse.NorMal (r : SyncCheckResponse) : Bool :=
  r.retCode == 0 && r.selector == 0

/-- Modelled from the spec: the classified error for a non-success poll
signal, carried as a typed `Ret` value distinguishable from transport
errors. -/
def SyncCheckResponse.Err (r : SyncCheckResponse) : GoError :=
  GoError.ret r.retCode

/-- Session State as held by `Bot.Storage`: credentials, login metadata
and the last full initialization response (whose `SyncKey` field is the
sync cursor).  Go's nil pointers are `Option`s. -/
structure Storage : Type where
  loginInfo : Option LoginInfo
  request : Option BaseRequest
  response : Option WebInitResponse
deriving DecidableEq, Repr

/-- The transport collaborator handle (`Caller` and its `Client`): the
cookie jar and service domain it owns, plus the scripted outcome of the
remote `Logout` call (`none` = success). -/
structure Caller : Type where
  jar : CookieJar
  domain : String
  logoutResult : Option GoError
deriving DecidableEq, Repr

/-- The persistable snapshot (`HotReloadStorageItem`): exactly the five
fields `Bot.DumpTo` writes (src lines 287-293). -/
structure HotReloadStorageItem : Type where
  baseRequest : Option BaseRequest
  jar : CookieJar
  loginInfo : Option LoginInfo
  wechatDomain : String
  uuid : String
deriving DecidableEq, Repr

/-- Observable side effects of the core, recorded as a trace. -/
inductive Action : Type where
  | heartbeat (resp : SyncCheckResponse)
  | cursorSet (key : SyncKey)
  | handle (msg : Message)
  | remoteLogout
  | logoutCallback
deriving DecidableEq, Repr

/-- The orchestrator (`Bot`).  Callback and handler fields are modelled by
their presence (the nil checks are all the core reads); `context`/`cancel`
by `ctxDone`; `sync.Once` by `onceDone`.  The hot-reload storage is a
readable-writable buffer: `none` = nil storage, `some none` = empty
buffer (decode fails), `some (some item)` = buffer holding one encoded
snapshot. -/
structure Bot : Type where
  hasSyncCheckCallback : Bool
  hasLogoutCallback : Bool
  hasMessageHandler : Bool
  onceDone : Bool
  err : Option GoError
  ctxDone : Bool
  caller : Caller
  self : Option User
  storage : Storage
  hotReloadStorage : Option (Option HotReloadStorageItem)
  uuid : String
  deviceId : String
deriving DecidableEq, Repr

/-- Embeds `Bot.Alive` (src lines 38-48): nil self or a fired context
means not alive. -/
def Bot.Alive (b : Bot) : Bool :=
  match b.self with
  | none => false
  | some _ => !b.ctxDone

/-- Embeds `Bot.Exit` (src lines 262-268): fire the logout callback if
set, clear `self`, then cancel the context.  Returns the new state and
the emitted actions. -/
def Bot.Exit (b : Bot) : Bot × List Action :=
  ({ b with self := none, ctxDone := true },
   if b.hasLogoutCallback then [Action.logoutCallback] else [])

/-- Embeds `Bot.Block` (src lines 253-259).  The channel wait is modelled
by its observable outcome: `some (error ...)` when called with nil self,
`some (ok)` when the context is already done (the wait returns at once),
and `none` when the call would stay blocked. -/
def Bot.Block (b : Bot) : Option (Except GoError Unit) :=
  match b.self with
  | none => some (Except.error (GoError.str "`Block` must be called after user login"))
  | some _ => if b.ctxDone then some (Except.ok ()) else none

/-- Embeds `Bot.Logout` (src lines 110-120): only when alive, call the
remote logout with the stored login info; on remote failure return that
error without `Exit`; on success `Exit` and return nil.  When not alive,
return the usage error with no transport call. -/
def Bot.Logout (b : Bot) : Except GoError Unit × Bot × List Action :=
  if b.Alive then
    match b.caller.logoutResult with
    | some e => (Except.error e, b, [Action.remoteLogout])
    | none =>
      let (b2, tr) := b.Exit
      (Except.ok (), b2, Action.remoteLogout :: tr)
  else
    (Except.error (GoError.str "user not login"), b, [])

/-- Embeds `defaultSyncCheckErrHandler` (src lines 367-379): extract a
typed `Ret` with `errors.As`; on one of the three known fatal codes call
`Logout` (its result discarded) and signal stop (`false`); otherwise
signal continue (`true`). -/
def defaultSyncCheckErrHandler (b : Bot) (err : GoError) : Bool × Bot × List Action :=
  match err with
  | GoError.ret code =>
    if code = failedLoginCheck ∨ code = cookieInvalid ∨ code = failedLoginWarn then
      let (_, b2, tr) := b.Logout
      (false, b2, tr)
    else
      (true, b, [])
  | _ => (true, b, [])

instance {ε α : Type} [DecidableEq ε] [DecidableEq α] : DecidableEq (Except ε α) := fun x y =>
  match x, y with
  | Except.ok a, Except.ok b =>
    if h : a = b then Decidable.isTrue (by rw [h])
    else Decidable.isFalse (by intro q; injection q; exact h (by assumption))
  | Except.error a, Except.error b =>
    if h : a = b then Decidable.isTrue (by rw [h])
    else Decidable.isFalse (by intro q; injection q; exact h (by assumption))
  | Except.ok _, Except.error _ => Decidable.isFalse (by intro q; exact Except.noConfusion q)
  | Except.error _, Except.ok _ => Decidable.isFalse (by intro q; exact Except.noConfusion q)

/-- One iteration's scripted transport responses for the sync loop: the
outcome of `Caller.SyncCheck` and, should the loop fetch, the outcome of
`Caller.WebWxSync` (the fetched cursor and event batch). -/
structure PollStep : Type where
  check : Except GoError SyncCheckResponse
  syncFetch : Except GoError (SyncKey × List Message)
deriving DecidableEq, Repr

/-- Result of running `Bot.syncCheck` against a finite script: `done`
means the Go function returned (with its error value and the trace of
emitted actions); `pending` means the script ran out while the loop was
still alive and about to poll again. -/
inductive LoopResult : Type where
  | done (b : Bot) (err : Option GoError) (trace : List Action)
  | pending (b : Bot) (trace : List Action)
deriving DecidableEq, Repr

/-- Prefix a trace of actions onto a loop result. -/
def LoopResult.prependTrace : LoopResult → List Action → LoopResult
  | LoopResult.done b e tr, tr0 => LoopResult.done b e (tr0 ++ tr)
  | LoopResult.pending b tr, tr0 => LoopResult.pending b (tr0 ++ tr)

/-- The trace of a loop result. -/
def LoopResult.trace : LoopResult → List Action
  | LoopResult.done _ _ tr => tr
  | LoopResult.pending _ tr => tr

/-- The bot state a loop result ends in. -/
def LoopResult.bot : LoopResult → Bot
  | LoopResult.done b _ _ => b
  | LoopResult.pending b _ => b

/-- The heartbeat actions one successful poll emits: the callback runs
exactly when one is configured (src lines 213-215). -/
def heartbeatTrace (b : Bot) (resp : SyncCheckResponse) : List Action :=
  if b.hasSyncCheckCallback then [Action.heartbeat resp] else []

/-- Embeds the cursor store of `Bot.syncMessage` (src line 248):
`b.Storage.Response.SyncKey = resp.SyncKey`.  The stored response pointer
is non-nil whenever the loop runs (it is set by `WebInit` before the loop
starts), so the `Option.map` never degenerates in reachable states. -/
def Bot.setSyncKey (b : Bot) (k : SyncKey) : Bot :=
  { b with storage :=
      { b.storage with response := b.storage.response.map (fun r => { r with syncKey := k }) } }

/-- The sync cursor currently stored in Session State. -/
def Bot.storedSyncKey (b : Bot) : Option SyncKey :=
  b.storage.response.map (fun r => r.syncKey)

/-- Embeds `Bot.syncCheck` (src lines 201-239) driven by a finite script
of transport responses, one `PollStep` consumed per iteration.  Faithful
control flow: while alive, long-poll; on transport error return it; run
the heartbeat callback; on a non-success status return the classified
error; on the normal selector re-poll at once; otherwise fetch
(`syncMessage`, src lines 242-250), store the fetched cursor, then — only
when a handler is configured — dispatch each fetched event in order. -/
def Bot.syncCheck : Bot → List PollStep → LoopResult
  | b, [] =>
    if b.Alive then LoopResult.pending b [] else LoopResult.done b none []
  | b, step :: rest =>
    if b.Alive then
      match step.check with
      | Except.error e => LoopResult.done b (some e) []
      | Except.ok resp =>
        let tr0 := heartbeatTrace b resp
        if resp.Success then
          if resp.NorMal then
            (Bot.syncCheck b rest).prependTrace tr0
          else
            match step.syncFetch with
            | Except.error e => LoopResult.done b (some e) tr0
            | Except.ok (key, msgs) =>
              let b2 := b.setSyncKey key
              let batch := tr0 ++ Action.cursorSet key ::
                (if b.hasMessageHandler then msgs.map Action.handle else [])
              (Bot.syncCheck b2 rest).prependTrace batch
        else
          LoopResult.done b (some resp.Err) tr0
    else
      LoopResult.done b none []

/-- Result of the background task (the goroutine body, src lines 180-195)
against a finite script: `exited` means the `break` was reached after a
stop classification; `running` means the task is still iterating when the
script runs out. -/
inductive TaskResult : Type where
  | exited (e : GoError) (b : Bot)
  | running (b : Bot)
deriving DecidableEq, Repr

/-- Embeds the background task spawned by `WebInit` (the `once.Do` body,
src lines 180-195), with the default error classifier installed: call
`syncCheck`; a nil error means loop again (`continue`); a non-nil error
is classified, continuing on `true` and breaking with `b.err = err` on
`false`.  One inner-loop script is consumed per outer iteration. -/
def syncTask : Bot → List (List PollStep) → TaskResult
  | b, [] => TaskResult.running b
  | b, script :: rest =>
    match b.syncCheck script with
    | LoopResult.pending b2 _ => TaskResult.running b2
    | LoopResult.done b2 none _ => syncTask b2 rest
    | LoopResult.done b2 (some e) _ =>
      let (goon, b3, _) := defaultSyncCheckErrHandler b2 e
      if goon then syncTask b3 rest else TaskResult.exited e { b3 with err := some e }

/-- Scripted transport responses for one `Bot.WebInit` call. -/
structure WebInitEnv : Type where
  webInit : Except GoError WebInitResponse
  statusNotify : Option GoError
deriving DecidableEq, Repr

/-- Embeds `Bot.WebInit` (src lines 159-197): initialize against the
service, set `self` and store the response, notify the phone client, then
`go b.once.Do(loop)`.  The boolean reports whether this call actually
started the background task: `sync.Once` runs its body at most once per
`Bot`, so the body starts only when `onceDone` was still false, and
`onceDone` is never reset. -/
def Bot.WebInit (b : Bot) (env : WebInitEnv) : Except GoError Unit × Bot × Bool :=
  match env.webInit with
  | Except.error e => (Except.error e, b, false)
  | Except.ok resp =>
    let b1 := { b with self := some resp.user,
                       storage := { b.storage with response := some resp } }
    match env.statusNotify with
    | some e => (Except.error e, b1, false)
    | none =>
      if b1.onceDone then (Except.ok (), b1, false)
      else (Except.ok (), { b1 with onceDone := true }, true)

/-- Runs a sequence of `WebInit` calls on one bot instance (as a hot or
push login on an already-online bot does), counting how many of them
started the background task. -/
def webInitSpawnCount : Bot → List WebInitEnv → Bot × Nat
  | b, [] => (b, 0)
  | b, env :: rest =>
    let (_, b2, started) := b.WebInit env
    let (b3, n) := webInitSpawnCount b2 rest
    (b3, (if started then 1 else 0) + n)

/-- Embeds `Bot.DumpTo` (src lines 285-295): the snapshot record the JSON
encoder writes — credentials, cookie jar, login metadata, service domain
and login UUID.  The JSON codec itself is the external collaborator; it
is modelled as the identity on the record (encode then decode yields the
same record). -/
def Bot.DumpTo (b : Bot) : HotReloadStorageItem :=
  { baseRequest := b.storage.request
    jar := b.caller.jar
    loginInfo := b.storage.loginInfo
    wechatDomain := b.caller.domain
    uuid := b.uuid }

/-- Embeds `Bot.DumpHotReloadStorage` (src lines 276-281): usage error on
a nil storage, otherwise write the snapshot into the buffer. -/
def Bot.DumpHotReloadStorage (b : Bot) : Except GoError Bot :=
  match b.hotReloadStorage with
  | none => Except.error (GoError.str "HotReloadStorage can not be nil")
  | some _ => Except.ok { b with hotReloadStorage := some (some b.DumpTo) }

/-- Embeds `Bot.reload` (src lines 312-327): usage error on nil storage;
decode error on an empty buffer; otherwise restore the cookie jar, login
info, credentials, domain and UUID from the decoded snapshot.  Note that
`Storage.Response` (the sync cursor) is not touched. -/
def Bot.reload (b : Bot) : Except GoError Bot :=
  match b.hotReloadStorage with
  | none => Except.error (GoError.str "hotReloadStorage is nil")
  | some none => Except.error (GoError.str "EOF")
  | some (some item) =>
    Except.ok { b with
      caller := { b.caller with jar := item.jar, domain := item.wechatDomain },
      storage := { b.storage with loginInfo := item.loginInfo, request := item.baseRequest },
      uuid := item.uuid }

/-- The spec's `Exited` lifecycle state read off the bot: cancellation has
fired and the session user reference is cleared. -/
def Bot.Exited (b : Bot) : Prop :=
  b.ctxDone = true ∧ b.self = none

instance (b : Bot) : Decidable b.Exited := by
  unfold Bot.Exited
  infer_instance

/-- Recognizes a cursor-store action. -/
def isCursorSet : Action → Bool
  | Action.cursorSet _ => true
  | _ => false

/-- A sample user for concrete instantiations. -/
def sampleUser : User := { userName := "wxid-sample" }

/-- A sample starting sync cursor. -/
def sampleKey : SyncKey := { count := 1, keys := [(1, 5)] }

/-- A sample advanced sync cursor, distinct from `sampleKey`. -/
def sampleKey2 : SyncKey := { count := 2, keys := [(1, 5), (2, 9)] }

/-- A sample initialization response holding `sampleKey`. -/
def sampleResponse : WebInitResponse := { user := sampleUser, syncKey := sampleKey }

/-- A sample login metadata block. -/
def sampleLoginInfo : LoginInfo :=
  { wxuin := 77, wxsid := "sid77", skey := "skey77", passTicket := "ticket77" }

/-- A sample credentials block. -/
def sampleRequest : BaseRequest :=
  { uin := 77, sid := "sid77", skey := "skey77", deviceID := "e7700000000000001" }

/-- A sample populated session state. -/
def sampleStorage : Storage :=
  { loginInfo := some sampleLoginInfo
    request := some sampleRequest
    response := some sampleResponse }

/-- A sample transport whose remote logout succeeds. -/
def sampleCaller : Caller :=
  { jar := [("wxsid", "cookie-sid")], domain := "wx.qq.com", logoutResult := none }

/-- A live, logged-in bot (self set, context not cancelled). -/
def liveBot : Bot :=
  { hasSyncCheckCallback := true
    hasLogoutCallback := false
    hasMessageHandler := true
    onceDone := true
    err := none
    ctxDone := false
    caller := sampleCaller
    self := some sampleUser
    storage := sampleStorage
    hotReloadStorage := none
    uuid := "uuid-sample"
    deviceId := "e7700000000000001" }

/-- A live bot whose remote logout call fails with a transport error. -/
def liveBotRemoteFail : Bot :=
  { liveBot with
      caller := { sampleCaller with logoutResult := some (GoError.transport "connection reset") } }

/-- A bot on which no login ever completed (nil self). -/
def deadBot : Bot :=
  { liveBot with self := none }

/-- A bot whose cancellation signal has fired. -/
def cancelledBot : Bot :=
  { liveBot with self := none, ctxDone := true }

/-- A freshly constructed bot (as `NewBot` returns: empty storage, nil
self) whose hot-reload buffer holds the snapshot dumped by `liveBot`. -/
def freshBot : Bot :=
  { hasSyncCheckCallback := true
    hasLogoutCallback := false
    hasMessageHandler := false
    onceDone := false
    err := none
    ctxDone := false
    caller := { jar := [], domain := "", logoutResult := none }
    self := none
    storage := { loginInfo := none, request := none, response := none }
    hotReloadStorage := some (some liveBot.DumpTo)
    uuid := ""
    deviceId := "" }

/-- A sample poll signal with a non-success status code. -/
def respFail : SyncCheckResponse := { retCode := -1, selector := 0 }

/-- A sample poll signal with success status and the new-message selector. -/
def respNew : SyncCheckResponse := { retCode := 0, selector := 2 }

/-- A sample poll signal with success status and the normal selector. -/
def respNormal : SyncCheckResponse := { retCode := 0, selector := 0 }

/-- A sample fetched event. -/
def msg0 : Message := { msgId := "m-1", content := "hello" }

/-- A scripted iteration whose poll returns the non-success signal. -/
def stepFail : PollStep :=
  { check := Except.ok respFail, syncFetch := Except.error (GoError.transport "unreached") }

/-- A scripted iteration whose poll signals new messages and whose fetch
returns the advanced cursor and one event. -/
def stepNew : PollStep :=
  { check := Except.ok respNew, syncFetch := Except.ok (sampleKey2, [msg0]) }

end Openwechat

namespace Openwechat

theorem LoopResult.bot_prependTrace (r : LoopResult) (tr : List Action) :
    (r.prependTrace tr).bot = r.bot := by
  cases r <;> rfl

theorem LoopResult.trace_prependTrace (r : LoopResult) (tr : List Action) :
    (r.prependTrace tr).trace = tr ++ r.trace := by
  cases r <;> rfl

theorem heartbeatTrace_no_cursorSet (b : Bot) (resp : SyncCheckResponse) (k : SyncKey) :
    Action.cursorSet k ∉ heartbeatTrace b resp := by
  unfold heartbeatTrace
  by_cases h : b.hasSyncCheckCallback <;> simp [h]

theorem heartbeatTrace_no_handle (b : Bot) (resp : SyncCheckResponse) (m : Message) :
    Action.handle m ∉ heartbeatTrace b resp := by
  unfold heartbeatTrace
  by_cases h : b.hasSyncCheckCallback <;> simp [h]

theorem classifier_fatal_eq (b : Bot) (code : Int)
    (hc : code = failedLoginCheck ∨ code = cookieInvalid ∨ code = failedLoginWarn) :
    defaultSyncCheckErrHandler b (GoError.ret code) =
      (false, (b.Logout).2.1, (b.Logout).2.2) := by
  rcases hL : b.Logout with ⟨r, b2, tr⟩
  simp [defaultSyncCheckErrHandler, hc, hL]

theorem classifier_nonfatal_eq (b : Bot) (code : Int)
    (hc : ¬(code = failedLoginCheck ∨ code = cookieInvalid ∨ code = failedLoginWarn)) :
    defaultSyncCheckErrHandler b (GoError.ret code) = (true, b, []) := by
  simp [defaultSyncCheckErrHandler, hc]

theorem logout_success_bot (b : Bot) (ha : b.Alive = true)
    (hnone : b.caller.logoutResult = none) :
    (b.Logout).2.1 = (b.Exit).1 := by
  simp [Bot.Logout, ha, hnone, Bot.Exit]

theorem exit_exited (b : Bot) : ((b.Exit).1).Exited := by
  exact ⟨rfl, rfl⟩

/-- C6: the default error classifier is a deterministic function of the
error value: it signals stop (`false`) for exactly the three known fatal
status codes — login-check-failed, stale or invalid cookie, and the
remote-logout warning — and continue (`true`) for every other error
value, plain transport errors included; the decision does not depend on
the bot state. -/
theorem c6_default_classifier_fatal_iff (b : Bot) (err : GoError) :
    ((defaultSyncCheckErrHandler b err).1 = false ↔
      (err = GoError.ret failedLoginCheck ∨ err = GoError.ret cookieInvalid ∨
        err = GoError.ret failedLoginWarn)) ∧
    (∀ b2 : Bot,
      (defaultSyncCheckErrHandler b err).1 = (defaultSyncCheckErrHandler b2 err).1) := by
  constructor
  · cases err with
    | ret code =>
      by_cases h : code = failedLoginCheck ∨ code = cookieInvalid ∨ code = failedLoginWarn
      · rw [classifier_fatal_eq b code h]
        simpa using h
      · rw [classifier_nonfatal_eq b code h]
        simpa using h
    | transport m => simp [defaultSyncCheckErrHandler]
    | str m => simp [defaultSyncCheckErrHandler]
  · intro b2
    cases err with
    | ret code =>
      by_cases h : code = failedLoginCheck ∨ code = cookieInvalid ∨ code = failedLoginWarn
      · rw [classifier_fatal_eq b code h, classifier_fatal_eq b2 code h]
      · rw [classifier_nonfatal_eq b code h, classifier_nonfatal_eq b2 code h]
    | transport m => rfl
    | str m => rfl

/-- C9: `Logout` invoked while the session is not alive returns the
"user not login" usage error, performs no state change and emits no
transport call; conversely a remote logout call is only ever emitted by
an alive session. -/
theorem c9_logout_guard (b : Bot) (h : b.Alive = false) :
    b.Logout = (Except.error (GoError.str "user not login"), b, []) ∧
    (∀ b2 : Bot, Action.remoteLogout ∈ (b2.Logout).2.2 → b2.Alive = true) := by
  constructor
  · simp [Bot.Logout, h]
  · intro b2 hm
    cases hA : b2.Alive with
    | true => rfl
    | false =>
      rw [Bot.Logout] at hm
      simp [hA] at hm

theorem c9_witness :
    deadBot.Alive = false ∧
    (deadBot.Logout = (Except.error (GoError.str "user not login"), deadBot, []) ∧
      (∀ b2 : Bot, Action.remoteLogout ∈ (b2.Logout).2.2 → b2.Alive = true)) :=
  ⟨by decide, c9_logout_guard deadBot (by decide)⟩

/-- C10: `Exit` clears the user reference before cancelling, so `Block`
called after `Exit` returns the "must be called after user login" error
rather than observing the completed cancellation. -/
theorem c10_block_after_exit (b : Bot) :
    ((b.Exit).1).Block =
      some (Except.error (GoError.str "`Block` must be called after user login")) := by
  simp [Bot.Exit, Bot.Block]

/-- C1 counterexample: a fatal classification (login-check-failed) on a
live bot whose remote logout call fails with a transport error does stop
the loop, but leaves the orchestrator not `Exited`: `Logout` returns the
remote error before reaching `Exit`, so the claim that every fatal
classification ends `Exited` regardless of the remote call's outcome is
false. -/
theorem c1_cex :
    (defaultSyncCheckErrHandler liveBotRemoteFail (GoError.ret failedLoginCheck)).1 = false ∧
    ¬ ((defaultSyncCheckErrHandler liveBotRemoteFail (GoError.ret failedLoginCheck)).2.1).Exited := by
  decide

/-- C1 (amended): a fatal classification always signals stop, and the
teardown it triggers reaches `Exited` (cancellation fired, session state
cleared) when the remote logout call succeeds; when the remote call
returns an error, `Logout` propagates it without calling `Exit`. -/
theorem c1_fatal_stop_teardown (b : Bot) (code : Int)
    (hc : code = failedLoginCheck ∨ code = cookieInvalid ∨ code = failedLoginWarn)
    (ha : b.Alive = true) :
    (defaultSyncCheckErrHandler b (GoError.ret code)).1 = false ∧
    (b.caller.logoutResult = none →
      ((defaultSyncCheckErrHandler b (GoError.ret code)).2.1).Exited) := by
  rw [classifier_fatal_eq b code hc]
  refine ⟨rfl, fun hnone => ?_⟩
  rw [logout_success_bot b ha hnone]
  exact exit_exited b

theorem c1_witness :
    (failedLoginCheck = failedLoginCheck ∨ failedLoginCheck = cookieInvalid ∨
      failedLoginCheck = failedLoginWarn) ∧
    liveBot.Alive = true ∧
    ((defaultSyncCheckErrHandler liveBot (GoError.ret failedLoginCheck)).1 = false ∧
      (liveBot.caller.logoutResult = none →
        ((defaultSyncCheckErrHandler liveBot (GoError.ret failedLoginCheck)).2.1).Exited)) :=
  ⟨Or.inl rfl, by decide,
    c1_fatal_stop_teardown liveBot failedLoginCheck (Or.inl rfl) (by decide)⟩

/-- C2 counterexample: `liveBot` holds the cursor `sampleKey`, yet
decoding its dumped snapshot into a fresh bot yields a session state
whose stored cursor is `none`: the snapshot record written by `DumpTo`
has no cursor field and `reload` never touches `Storage.Response`, so
the cursor does not survive a dump/reload cycle. -/
theorem c2_cex :
    liveBot.storedSyncKey = some sampleKey ∧
    Except.map Bot.storedSyncKey freshBot.reload = Except.ok none := by
  decide

/-- C2 (amended): the persisted snapshot contains the credentials,
cookie jar, login metadata, service domain and login UUID but not the
sync cursor: the snapshot written by `DumpTo` is unchanged by any cursor
update, and decoding it with `reload` leaves the target's
`Storage.Response` (hence the cursor) exactly as it was, so resumption
re-establishes the cursor from a fresh initialization exchange instead. -/
theorem c2_snapshot_no_cursor (b target : Bot) (item : HotReloadStorageItem)
    (h : target.hotReloadStorage = some (some item)) :
    (∀ k : SyncKey, (b.setSyncKey k).DumpTo = b.DumpTo) ∧
    (∃ t2 : Bot, target.reload = Except.ok t2 ∧
      t2.storage.response = target.storage.response) := by
  constructor
  · intro k
    rfl
  · refine ⟨{ target with
      caller := { target.caller with jar := item.jar, domain := item.wechatDomain },
      storage := { target.storage with loginInfo := item.loginInfo, request := item.baseRequest },
      uuid := item.uuid }, ?_, rfl⟩
    simp [Bot.reload, h]

theorem c2_witness :
    freshBot.hotReloadStorage = some (some liveBot.DumpTo) ∧
    ((∀ k : SyncKey, (liveBot.setSyncKey k).DumpTo = liveBot.DumpTo) ∧
      (∃ t2 : Bot, freshBot.reload = Except.ok t2 ∧
        t2.storage.response = freshBot.storage.response)) :=
  ⟨rfl, c2_snapshot_no_cursor liveBot freshBot liveBot.DumpTo rfl⟩

/-- C8: serializing with `DumpTo` and decoding with `reload` reproduces
the credentials block, the login metadata, the service domain, the login
UUID, and the cookie jar exactly on the resumed bot. -/
theorem c8_dump_reload_roundtrip (b target : Bot)
    (h : target.hotReloadStorage = some (some b.DumpTo)) :
    ∃ t2 : Bot, target.reload = Except.ok t2 ∧
      t2.storage.request = b.storage.request ∧
      t2.storage.loginInfo = b.storage.loginInfo ∧
      t2.caller.domain = b.caller.domain ∧
      t2.uuid = b.uuid ∧
      t2.caller.jar = b.caller.jar := by
  refine ⟨{ target with
      caller := { target.caller with jar := b.DumpTo.jar, domain := b.DumpTo.wechatDomain },
      storage := { target.storage with loginInfo := b.DumpTo.loginInfo,
                                       request := b.DumpTo.baseRequest },
      uuid := b.DumpTo.uuid }, ?_, rfl, rfl, rfl, rfl, rfl⟩
  simp [Bot.reload, h]

theorem c8_witness :
    freshBot.hotReloadStorage = some (some liveBot.DumpTo) ∧
    (∃ t2 : Bot, freshBot.reload = Except.ok t2 ∧
      t2.storage.request = liveBot.storage.request ∧
      t2.storage.loginInfo = liveBot.storage.loginInfo ∧
      t2.caller.domain = liveBot.caller.domain ∧
      t2.uuid = liveBot.uuid ∧
      t2.caller.jar = liveBot.caller.jar) :=
  ⟨rfl, c8_dump_reload_roundtrip liveBot freshBot rfl⟩

theorem syncCheck_cancelled (b : Bot) (h : b.ctxDone = true) (steps : List PollStep) :
    b.syncCheck steps = LoopResult.done b none [] := by
  have ha : b.Alive = false := by
    unfold Bot.Alive
    cases b.self <;> simp [h]
  cases steps with
  | nil => simp [Bot.syncCheck, ha]
  | cons s rest => simp [Bot.syncCheck, ha]

theorem syncTask_cancelled (b : Bot) (h : b.ctxDone = true) :
    ∀ scripts : List (List PollStep), syncTask b scripts = TaskResult.running b := by
  intro scripts
  induction scripts with
  | nil => rfl
  | cons s ss ih => simp [syncTask, syncCheck_cancelled b h s, ih]

/-- C3 counterexample: on a bot whose cancellation signal has fired, the
background task does not exit: after five outer iterations it is still
running, and no script of transport responses can ever drive it to the
`break` — each `syncCheck` call returns a nil error, so the goroutine's
`for` loop does `continue` forever instead of exiting. -/
theorem c3_cex :
    syncTask cancelledBot [[], [], [], [], []] = TaskResult.running cancelledBot ∧
    ¬ ∃ (scripts : List (List PollStep)) (e : GoError) (b2 : Bot),
        syncTask cancelledBot scripts = TaskResult.exited e b2 := by
  constructor
  · rw [syncTask_cancelled cancelledBot rfl]
  · rintro ⟨ss, e, b2, hx⟩
    rw [syncTask_cancelled cancelledBot rfl ss] at hx
    exact TaskResult.noConfusion hx

/-- C3 (amended): once the context is cancelled, `syncCheck` exits its
polling loop immediately — it returns a nil error without issuing any
transport call or emitting any action — but the background task spawned
by `WebInit` does not exit: its loop treats the nil error as `continue`
and re-invokes `syncCheck` indefinitely, only a stop-classified error
ever reaches its `break`. -/
theorem c3_cancel_behavior (b : Bot) (h : b.ctxDone = true)
    (steps : List PollStep) (scripts : List (List PollStep)) :
    b.syncCheck steps = LoopResult.done b none [] ∧
    syncTask b scripts = TaskResult.running b :=
  ⟨syncCheck_cancelled b h steps, syncTask_cancelled b h scripts⟩

theorem c3_witness :
    cancelledBot.ctxDone = true ∧
    (cancelledBot.syncCheck [stepFail] = LoopResult.done cancelledBot none [] ∧
      syncTask cancelledBot [[stepFail]] = TaskResult.running cancelledBot) :=
  ⟨rfl, c3_cancel_behavior cancelledBot rfl [stepFail] [[stepFail]]⟩

theorem webInit_started_once (b : Bot) (env : WebInitEnv) :
    ((b.WebInit env).2.2 = true →
        b.onceDone = false ∧ ((b.WebInit env).2.1).onceDone = true) ∧
    ((b.WebInit env).2.2 = false → ((b.WebInit env).2.1).onceDone = b.onceDone) := by
  rcases hw : env.webInit with e | resp <;> rcases hn : env.statusNotify with _ | e2 <;>
    by_cases ho : b.onceDone <;> simp [Bot.WebInit, hw, hn, ho]

theorem spawnCount_zero : ∀ (envs : List WebInitEnv) (b : Bot), b.onceDone = true →
    (webInitSpawnCount b envs).2 = 0 := by
  intro envs
  induction envs with
  | nil => intro b _; rfl
  | cons env rest ih =>
    intro b h
    rcases hw : b.WebInit env with ⟨r, b2, s⟩
    have hfacts := webInit_started_once b env
    rw [hw] at hfacts
    cases s with
    | false =>
      have hb2 : b2.onceDone = b.onceDone := hfacts.2 rfl
      simp [webInitSpawnCount, hw, ih b2 (hb2.trans h)]
    | true =>
      have hcontra := (hfacts.1 rfl).1
      rw [h] at hcontra
      exact absurd hcontra (by simp)

/-- C7: over any sequence of `WebInit` calls on one bot instance (a hot
or push login on an already-online bot repeats `WebInit`), the
background long-poll task is started at most once, and not at all if the
start-once guard was already consumed — the guard is never reset, so a
resumed login cannot spawn a second concurrent loop. -/
theorem c7_sync_loop_started_once : ∀ (envs : List WebInitEnv) (b : Bot),
    (webInitSpawnCount b envs).2 ≤ (if b.onceDone then 0 else 1) := by
  intro envs
  induction envs with
  | nil => intro b; simp [webInitSpawnCount]
  | cons env rest ih =>
    intro b
    rcases hw : b.WebInit env with ⟨r, b2, s⟩
    have hfacts := webInit_started_once b env
    rw [hw] at hfacts
    cases s with
    | false =>
      have hb2 : b2.onceDone = b.onceDone := hfacts.2 rfl
      have hbd := ih b2
      rw [hb2] at hbd
      simpa [webInitSpawnCount, hw] using hbd
    | true =>
      obtain ⟨hb, hb2⟩ := hfacts.1 rfl
      have hz := spawnCount_zero rest b2 hb2
      simp [webInitSpawnCount, hw, hb, hz]

theorem mem_left_of_split : ∀ (pre post l1 l2 : List Action) (a x : Action),
    x ∉ pre → x ≠ a → pre ++ a :: post = l1 ++ x :: l2 → a ∈ l1 := by
  intro pre
  induction pre with
  | nil =>
    intro post l1 l2 a x hx hxa h
    cases l1 with
    | nil =>
      simp at h
      exact absurd h.1.symm hxa
    | cons y l1t =>
      simp at h
      rw [h.1]
      exact List.mem_cons_self _ _
  | cons p pt ih =>
    intro post l1 l2 a x hx hxa h
    cases l1 with
    | nil =>
      simp at h
      exfalso
      apply hx
      rw [← h.1]
      exact List.mem_cons_self _ _
    | cons y l1t =>
      simp at h
      have hx2 : x ∉ pt := fun q => hx (List.mem_cons_of_mem _ q)
      exact List.mem_cons_of_mem _ (ih post l1t l2 a x hx2 hxa h.2)

theorem filter_cursorSet_map_handle (msgs : List Message) :
    (msgs.map Action.handle).filter isCursorSet = [] := by
  induction msgs with
  | nil => rfl
  | cons m t ih => simp [List.filter, isCursorSet, ih]

/-- C4: for every fetched batch, the sync cursor stored in session state
is set to exactly the value returned by that fetch, before any handler
dispatch: the iteration's action segment carries exactly one cursor
store — holding the fetched value — and it precedes every handler
invocation of the batch; the loop continues with the advanced cursor in
place. -/
theorem c4_cursor_before_dispatch (b : Bot) (step : PollStep) (rest : List PollStep)
    (resp : SyncCheckResponse) (key : SyncKey) (msgs : List Message)
    (ha : b.Alive = true)
    (hc : step.check = Except.ok resp)
    (hs : resp.Success = true)
    (hn : resp.NorMal = false)
    (hf : step.syncFetch = Except.ok (key, msgs))
    (hr : (b.storage.response).isSome = true) :
    b.syncCheck (step :: rest) =
      (Bot.syncCheck (b.setSyncKey key) rest).prependTrace
        (heartbeatTrace b resp ++ Action.cursorSet key ::
          (if b.hasMessageHandler then msgs.map Action.handle else [])) ∧
    (b.setSyncKey key).storedSyncKey = some key ∧
    ((heartbeatTrace b resp ++ Action.cursorSet key ::
        (if b.hasMessageHandler then msgs.map Action.handle else [])).filter isCursorSet
      = [Action.cursorSet key]) ∧
    (∀ (l1 l2 : List Action) (m : Message),
      heartbeatTrace b resp ++ Action.cursorSet key ::
          (if b.hasMessageHandler then msgs.map Action.handle else []) =
        l1 ++ Action.handle m :: l2 →
      Action.cursorSet key ∈ l1) := by
  refine ⟨?_, ?_, ?_, ?_⟩
  · simp [Bot.syncCheck, ha, hc, hs, hn, hf]
  · cases hre : b.storage.response with
    | none => rw [hre] at hr; exact absurd hr (by simp)
    | some r => simp [Bot.setSyncKey, Bot.storedSyncKey, hre]
  · by_cases hcb : b.hasSyncCheckCallback <;> by_cases hh : b.hasMessageHandler <;>
      simp [heartbeatTrace, hcb, hh, List.filter, isCursorSet, filter_cursorSet_map_handle]
  · intro l1 l2 m hsplit
    exact mem_left_of_split (heartbeatTrace b resp) _ l1 l2
      (Action.cursorSet key) (Action.handle m)
      (heartbeatTrace_no_handle b resp m) (by simp) hsplit

theorem c4_witness :
    liveBot.Alive = true ∧
    (liveBot.storage.response).isSome = true ∧
    (liveBot.setSyncKey sampleKey2).storedSyncKey = some sampleKey2 :=
  ⟨by decide, by decide,
    (c4_cursor_before_dispatch liveBot stepNew [] respNew sampleKey2 [msg0]
      (by decide) rfl (by decide) (by decide) rfl (by decide)).2.1⟩

/-- C5: per-iteration behavior of the long-poll loop: a non-success
status terminates the loop with the corresponding classified error and
no fetch; a success status with the normal selector re-polls immediately
with no fetch, no handler invocation and an unchanged bot; any other
selector triggers the follow-up fetch, advances the cursor and invokes
the handler once per returned event in arrival order; when no handler is
configured the fetched events are dropped from dispatch but the cursor
still advances. -/
theorem c5_poll_signal_cases (b : Bot) (step : PollStep) (rest : List PollStep)
    (resp : SyncCheckResponse)
    (ha : b.Alive = true)
    (hc : step.check = Except.ok resp) :
    (resp.Success = false →
      b.syncCheck (step :: rest) =
        LoopResult.done b (some resp.Err) (heartbeatTrace b resp)) ∧
    (resp.Success = true → resp.NorMal = true →
      b.syncCheck (step :: rest) = (b.syncCheck rest).prependTrace (heartbeatTrace b resp) ∧
      (b.syncCheck (step :: rest)).bot = (b.syncCheck rest).bot ∧
      (∀ k : SyncKey, Action.cursorSet k ∉ heartbeatTrace b resp) ∧
      (∀ m : Message, Action.handle m ∉ heartbeatTrace b resp)) ∧
    (∀ (key : SyncKey) (msgs : List Message),
      resp.Success = true → resp.NorMal = false →
      step.syncFetch = Except.ok (key, msgs) →
      b.hasMessageHandler = true →
      b.syncCheck (step :: rest) =
        (Bot.syncCheck (b.setSyncKey key) rest).prependTrace
          (heartbeatTrace b resp ++ Action.cursorSet key :: msgs.map Action.handle)) ∧
    (∀ (key : SyncKey) (msgs : List Message),
      resp.Success = true → resp.NorMal = false →
      step.syncFetch = Except.ok (key, msgs) →
      b.hasMessageHandler = false →
      b.syncCheck (step :: rest) =
        (Bot.syncCheck (b.setSyncKey key) rest).prependTrace
          (heartbeatTrace b resp ++ [Action.cursorSet key])) := by
  refine ⟨?_, ?_, ?_, ?_⟩
  · intro hs
    simp [Bot.syncCheck, ha, hc, hs]
  · intro hs hn
    have heq : b.syncCheck (step :: rest) =
        (b.syncCheck rest).prependTrace (heartbeatTrace b resp) := by
      simp [Bot.syncCheck, ha, hc, hs, hn]
    refine ⟨heq, ?_, ?_, ?_⟩
    · rw [heq, LoopResult.bot_prependTrace]
    · intro k
      exact heartbeatTrace_no_cursorSet b resp k
    · intro m
      exact heartbeatTrace_no_handle b resp m
  · intro key msgs hs hn hf hh
    simp [Bot.syncCheck, ha, hc, hs, hn, hf, hh]
  · intro key msgs hs hn hf hh
    simp [Bot.syncCheck, ha, hc, hs, hn, hf, hh]

theorem c5_witness :
    liveBot.Alive = true ∧
    stepFail.check = Except.ok respFail ∧
    liveBot.syncCheck [stepFail] =
      LoopResult.done liveBot (some respFail.Err) (heartbeatTrace liveBot respFail) :=
  ⟨by decide, rfl,
    (c5_poll_signal_cases liveBot stepFail [] respFail (by decide) rfl).1 (by decide)⟩

end Openwechat
